import Mathlib

/-!
Verification of the Notification Delivery & Sequencing subsystem of the
`bekuta-by-arca` repository: the `TeamAchievementNotification` React
component.  The component keeps three pieces of `useState` state —
`notifications` (the Pending Queue), `showNotification` (the Sequencer's
Idle/Showing flag) and `currentNotification` (the item being presented) —
and five handlers: `loadUnreadNotifications`, `subscribeToNotifications`,
`showNextNotification`, `triggerConfetti` and `handleClose`, plus the
`useEffect` bodies wiring them together.

Each handler below is a direct transcription of the corresponding source
function into a pure state-transition function.  The component state is
extended with observable "ghost" fields (shown log, confetti-trigger count,
pending settling timers, issued mark-read calls, recorded console
diagnostics, live-subscription status) so that the behaviour the spec talks
about — presentations, side effects, timers, teardown — is visible in the
state without changing the transitions the source performs.
-/

namespace Bekuta

/-- Mirror of the `TeamAchievement` interface (source lines 45-54).
`metadata` is type-erased (`any`) in the source and never interpreted;
it is carried here as an opaque string. -/
structure TeamAchievement where
  id : String
  team_id : String
  achievement_type : String
  title : String
  description : String
  achieved_at : Nat
  metadata : String
  celebrated : Bool
  deriving Repr, DecidableEq

/-- Mirror of the `TeamAchievementNotification` interface (source lines
56-64).  `created_at` is the timestamp column the backend orders by;
timestamps are modelled as naturals. -/
structure TeamAchievementNotification where
  id : String
  team_id : String
  user_id : String
  achievement_id : String
  is_read : Bool
  created_at : Nat
  team_achievements : TeamAchievement
  deriving Repr, DecidableEq

/-- The component's state.  The first three fields are the three `useState`
hooks (source lines 71-73).  The remaining fields record the observable
effects the component performs:

* `shownLog` — every notification passed to `setCurrentNotification` while
  entering the Showing state, in order (the presentation trace);
* `confettiCount` — number of `triggerConfetti()` invocations;
* `confettiIntervalActive` — whether the repeating confetti interval
  (source line 141) is currently scheduled;
* `settlingTimersPending` — number of scheduled, not-yet-fired and
  not-cancelled `setTimeout` settling timers (source line 174);
* `markReadCalls` — ids sent to the `mark_team_notification_read` rpc;
* `consoleErrors` — number of diagnostics recorded (`console.error`-style);
* `subscriptionActive` — whether the realtime channel subscription
  (source lines 103-117) is open. -/
structure ComponentState where
  notifications : List TeamAchievementNotification
  showNotification : Bool
  currentNotification : Option TeamAchievementNotification
  shownLog : List TeamAchievementNotification
  confettiCount : Nat
  confettiIntervalActive : Bool
  settlingTimersPending : Nat
  markReadCalls : List String
  consoleErrors : Nat
  subscriptionActive : Bool
  deriving Repr, DecidableEq

/-- The state at first render: `useState([])`, `useState(false)`,
`useState(null)`; nothing shown, no effects performed yet. -/
def initialState : ComponentState :=
  { notifications := []
    showNotification := false
    currentNotification := none
    shownLog := []
    confettiCount := 0
    confettiIntervalActive := false
    settlingTimersPending := 0
    markReadCalls := []
    consoleErrors := 0
    subscriptionActive := false }

/-- Result of the backend select, as surfaced by the client library:
either a data row list or an in-band error (the library reports failures
as a value, it does not throw). -/
inductive BackendResult where
  | ok (rows : List TeamAchievementNotification)
  | err (message : String)
  deriving Repr, DecidableEq

/-- Result of the `mark_team_notification_read` remote procedure call. -/
inductive RpcResult where
  | ok
  | err (message : String)
  deriving Repr, DecidableEq

/-- The backend query issued by `loadUnreadNotifications` (source lines
87-95): select rows of `team_achievement_notifications` with
`user_id = eq.userId` and `is_read = eq.false`, ordered by `created_at`
ascending (stable).  Modelled as a filter followed by a stable insertion
sort on `created_at`. -/
def insertByCreatedAt (n : TeamAchievementNotification) :
    List TeamAchievementNotification → List TeamAchievementNotification
  | [] => [n]
  | m :: ms =>
    if m.created_at < n.created_at then m :: insertByCreatedAt n ms
    else n :: m :: ms

/-- Stable insertion sort by `created_at` ascending (`.order('created_at',
{ ascending: true })` on the backend). -/
def sortByCreatedAt : List TeamAchievementNotification →
    List TeamAchievementNotification
  | [] => []
  | n :: ns => insertByCreatedAt n (sortByCreatedAt ns)

/-- The full server-side query: filter to the user's unread rows, then
order by `created_at` ascending. -/
def loadUnreadQuery (rows : List TeamAchievementNotification)
    (userId : String) : List TeamAchievementNotification :=
  sortByCreatedAt (rows.filter fun r => r.user_id == userId && !r.is_read)

/-- `loadUnreadNotifications` result handling (source lines 97-99):
`if (!error && data) { setNotifications(data); }` — on success the Pending
Queue is replaced wholesale; on error nothing at all happens (no state
change, and notably no diagnostic is recorded — the function body contains
no `console.error` and no else-branch). -/
def loadUnreadNotifications (result : BackendResult) (s : ComponentState) :
    ComponentState :=
  match result with
  | .ok rows => { s with notifications := rows }
  | .err _ => s

/-- `triggerConfetti` (source lines 132-162): fires the celebratory side
effect and schedules the repeating confetti interval.  The interval is
held only in a local variable; it clears itself once `timeLeft <= 0`
(source line 145) and is cleared by nothing else. -/
def triggerConfetti (s : ComponentState) : ComponentState :=
  { s with confettiCount := s.confettiCount + 1
           confettiIntervalActive := true }

/-- The confetti interval's own termination branch (source lines 144-146):
after the 3000 ms duration elapses, `clearInterval(interval)` runs from
inside the interval callback. -/
def confettiIntervalEnd (s : ComponentState) : ComponentState :=
  { s with confettiIntervalActive := false }

/-- `showNextNotification` (source lines 124-130):
`if (notifications.length > 0 && !showNotification)` then present the
queue head: `setCurrentNotification(notifications[0])`,
`setShowNotification(true)`, `triggerConfetti()`. -/
def showNextNotification (s : ComponentState) : ComponentState :=
  match s.notifications, s.showNotification with
  | n :: _, false =>
    triggerConfetti
      { s with currentNotification := some n
               showNotification := true
               shownLog := s.shownLog ++ [n] }
  | _, _ => s

/-- The `useEffect` on `[notifications]` (source lines 80-84):
`if (notifications.length > 0 && !showNotification) showNextNotification()`.
It runs after every render in which `notifications` changed. -/
def notificationsEffect (s : ComponentState) : ComponentState :=
  match s.notifications, s.showNotification with
  | _ :: _, false => showNextNotification s
  | _, _ => s

/-- The queue-removal step of `handleClose` (source line 172):
`prev.filter((n) => n.id !== currentNotification.id)` — the spec's
`removeById`. -/
def removeById (i : String) (q : List TeamAchievementNotification) :
    List TeamAchievementNotification :=
  q.filter fun n => n.id != i

/-- `handleClose` (source lines 164-178).  Guarded by
`if (currentNotification)`.  It awaits the `mark_team_notification_read`
rpc but never inspects its result (the source discards the returned
value), then unconditionally runs `setShowNotification(false)`,
`setCurrentNotification(null)`, removes the dismissed id from the queue
and schedules the 500 ms settling `setTimeout`.  The timeout handle is not
stored anywhere, so the ghost counter `settlingTimersPending` can only
ever be decremented by the timer itself firing. -/
def handleClose (remote : RpcResult) (s : ComponentState) : ComponentState :=
  match s.currentNotification with
  | none => s
  | some cur =>
    { s with showNotification := false
             currentNotification := none
             notifications := removeById cur.id s.notifications
             settlingTimersPending := s.settlingTimersPending + 1
             markReadCalls := s.markReadCalls ++ [cur.id] }

/-- The 500 ms settling timer firing (source lines 174-176): the callback
invokes `showNextNotification()` (whose own guard re-checks the state). -/
def settlingTimerFire (s : ComponentState) : ComponentState :=
  showNextNotification
    { s with settlingTimersPending := s.settlingTimersPending - 1 }

/-- The cleanup closure built by `subscribeToNotifications` (source lines
119-121): `() => { subscription.unsubscribe(); }`. -/
inductive CleanupAction where
  | unsubscribeChannel
  deriving Repr, DecidableEq

/-- `subscribeToNotifications` (source lines 102-122): opens the realtime
channel subscription and returns the unsubscribe closure to its caller. -/
def subscribeToNotifications (s : ComponentState) :
    ComponentState × CleanupAction :=
  ({ s with subscriptionActive := true }, CleanupAction.unsubscribeChannel)

/-- Running a cleanup closure: `subscription.unsubscribe()` closes the
channel. -/
def runCleanupAction : CleanupAction → ComponentState → ComponentState
  | CleanupAction.unsubscribeChannel, s => { s with subscriptionActive := false }

/-- The `useEffect` on `[userId]` (source lines 75-78):
`loadUnreadNotifications(); subscribeToNotifications();` — the body calls
both, but has no return statement, so the cleanup closure that
`subscribeToNotifications` returns is discarded and React registers no
cleanup for this effect (second component of the result is `none`). -/
def mountEffect (result : BackendResult) (s : ComponentState) :
    ComponentState × Option CleanupAction :=
  ((subscribeToNotifications (loadUnreadNotifications result s)).1, none)

/-- Component teardown: React runs whatever cleanup the effect registered
— and only that.  No other cancellation happens at unmount. -/
def unmount (registered : Option CleanupAction) (s : ComponentState) :
    ComponentState :=
  match registered with
  | none => s
  | some c => runCleanupAction c s

/-- The asynchronous completions that can resume and mutate the component
state, in arbitrary interleaving: a load (or reload) response, a live-feed
insert event (whose callback, source lines 113-115, triggers a reload — it
only runs while the channel subscription is open), the `[notifications]`
effect, a user dismissal, the settling timer, and the confetti interval's
self-termination. -/
inductive Event where
  | loadComplete (result : BackendResult)
  | insertEvent (result : BackendResult)
  | queueEffect
  | closeClick (remote : RpcResult)
  | settlingFire
  | confettiEnd
  deriving Repr, DecidableEq

/-- One event's full synchronous consequence.  A state update to
`notifications` is followed by the `[notifications]` effect, as React
guarantees the effect runs after the render that committed the update. -/
def applyEvent : Event → ComponentState → ComponentState
  | .loadComplete result, s => notificationsEffect (loadUnreadNotifications result s)
  | .insertEvent result, s =>
    if s.subscriptionActive then
      notificationsEffect (loadUnreadNotifications result s)
    else s
  | .queueEffect, s => notificationsEffect s
  | .closeClick remote, s => notificationsEffect (handleClose remote s)
  | .settlingFire, s => settlingTimerFire s
  | .confettiEnd, s => confettiIntervalEnd s

/-- A whole run: fold a sequence of event completions over a state. -/
def applyEvents (events : List Event) (s : ComponentState) : ComponentState :=
  events.foldl (fun t e => applyEvent e t) s

/-- The notifications currently presented to the user: the component
renders the modal for `currentNotification` only when `showNotification`
is set (source line 195: `if (!showNotification || !currentNotification)
return null`). -/
def shownNotifications (s : ComponentState) :
    List TeamAchievementNotification :=
  match s.showNotification, s.currentNotification with
  | true, some n => [n]
  | _, _ => []

/-- One full dismissal round under the canonical schedule: the user
dismisses the current item (`handleClose`, remote call succeeding), the
`[notifications]` effect runs on the committed queue update, and the
settling timer later fires (its guard re-checks the state). -/
def dismissStep (s : ComponentState) : ComponentState :=
  settlingTimerFire (notificationsEffect (handleClose RpcResult.ok s))

/-- The canonical delivery run for a load result `l`: the initial load
completes and its effect runs, then the user dismisses every presented
notification in turn. -/
def deliverRun (l : List TeamAchievementNotification) : ComponentState :=
  dismissStep^[l.length]
    (notificationsEffect (loadUnreadNotifications (BackendResult.ok l) initialState))

/-- `created_at` order, weak form. -/
abbrev leByCreatedAt (a b : TeamAchievementNotification) : Prop :=
  a.created_at ≤ b.created_at

/-- `created_at` order, strict form. -/
abbrev ltByCreatedAt (a b : TeamAchievementNotification) : Prop :=
  a.created_at < b.created_at

/-- Distinctness of `created_at` timestamps. -/
abbrev neByCreatedAt (a b : TeamAchievementNotification) : Prop :=
  a.created_at ≠ b.created_at

/-- A sample achievement row for concrete witnesses. -/
def sampleAchievement : TeamAchievement :=
  { id := "ach-1", team_id := "team-1", achievement_type := "team_streak"
    title := "7-day streak", description := "Everyone trained"
    achieved_at := 100, metadata := "", celebrated := false }

/-- Concrete notification rows (distinct ids, `created_at` 10 < 20 < 30). -/
def sampleN1 : TeamAchievementNotification :=
  { id := "n-1", team_id := "team-1", user_id := "u-1"
    achievement_id := "ach-1", is_read := false, created_at := 10
    team_achievements := sampleAchievement }

def sampleN2 : TeamAchievementNotification :=
  { id := "n-2", team_id := "team-1", user_id := "u-1"
    achievement_id := "ach-1", is_read := false, created_at := 20
    team_achievements := sampleAchievement }

def sampleN3 : TeamAchievementNotification :=
  { id := "n-3", team_id := "team-1", user_id := "u-1"
    achievement_id := "ach-1", is_read := false, created_at := 30
    team_achievements := sampleAchievement }

/-- A row already read, and a row of another user: both must be excluded
by the query. -/
def sampleRead : TeamAchievementNotification :=
  { id := "n-4", team_id := "team-1", user_id := "u-1"
    achievement_id := "ach-1", is_read := true, created_at := 5
    team_achievements := sampleAchievement }

def sampleOtherUser : TeamAchievementNotification :=
  { id := "n-5", team_id := "team-1", user_id := "u-2"
    achievement_id := "ach-1", is_read := false, created_at := 1
    team_achievements := sampleAchievement }

/-- A state in which `sampleN1` is being shown (the load completed with a
single row and its effect ran). -/
def showingOne : ComponentState :=
  applyEvent (Event.loadComplete (BackendResult.ok [sampleN1])) initialState

/-- A state in which the queue has been loaded but the effect has not yet
run: Idle with a non-empty queue. -/
def loadedIdle : ComponentState :=
  loadUnreadNotifications (BackendResult.ok [sampleN1]) initialState

/-! ## Helper lemmas -/

/-- Removing an id that does not occur in the queue leaves it unchanged. -/
theorem removeById_of_not_mem (i : String)
    (q : List TeamAchievementNotification)
    (h : i ∉ q.map fun n => n.id) : removeById i q = q := by
  induction q with
  | nil => rfl
  | cons m ms ih =>
    simp only [List.map_cons, List.mem_cons, not_or] at h
    have h1 : (m.id != i) = true := by
      simp only [bne_iff_ne, ne_eq]
      exact fun e => h.1 e.symm
    simp only [removeById, List.filter_cons, h1, if_true]
    have h2 := ih h.2
    simp only [removeById] at h2
    rw [h2]

/-- Any state shows at most one notification: the component renders the
single `currentNotification` slot, and only when `showNotification` is
set. -/
theorem shownNotifications_length_le_one (s : ComponentState) :
    (shownNotifications s).length ≤ 1 := by
  cases h : s.showNotification <;>
    cases h2 : s.currentNotification <;>
      simp [shownNotifications, h, h2]

/-- One dismissal round, starting from a state that is presenting the head
of queue `l` (or is idle on an empty queue): the whole remaining queue is
drained, in order, appending exactly `l.tail` to the presentation log. -/
theorem dismiss_loop :
    ∀ l : List TeamAchievementNotification,
    (l.map fun n => n.id).Nodup →
    ∀ s : ComponentState, s.notifications = l →
    (∀ n t, l = n :: t →
      s.showNotification = true ∧ s.currentNotification = some n) →
    (l = [] → s.showNotification = false) →
    (dismissStep^[l.length] s).shownLog = s.shownLog ++ l.tail
    ∧ (dismissStep^[l.length] s).notifications = []
    ∧ (dismissStep^[l.length] s).showNotification = false := by
  intro l
  induction l with
  | nil =>
    intro _ s hq _ hnil
    exact ⟨by simp, by simpa using hq, hnil rfl⟩
  | cons n t ih =>
    intro hnd s hq hcons _
    obtain ⟨hshow, hcur⟩ := hcons n t rfl
    have hnd' : (n.id :: t.map fun m => m.id).Nodup := by simpa using hnd
    have hn_notmem : n.id ∉ t.map fun m => m.id := (List.nodup_cons.mp hnd').1
    have hndt : (t.map fun m => m.id).Nodup := (List.nodup_cons.mp hnd').2
    have hrem : removeById n.id (n :: t) = t := by
      have h2 := removeById_of_not_mem n.id t hn_notmem
      simp only [removeById] at h2 ⊢
      simp [List.filter_cons, h2]
    have key : (dismissStep s).notifications = t
        ∧ (dismissStep s).shownLog = s.shownLog ++ t.take 1
        ∧ (dismissStep s).showNotification = !t.isEmpty
        ∧ (∀ m t2, t = m :: t2 → (dismissStep s).currentNotification = some m) := by
      cases t with
      | nil =>
        simp [dismissStep, handleClose, hcur, hq, hrem, notificationsEffect,
          settlingTimerFire, showNextNotification, triggerConfetti]
      | cons m t2 =>
        simp [dismissStep, handleClose, hcur, hq, hrem, notificationsEffect,
          settlingTimerFire, showNextNotification, triggerConfetti]
    obtain ⟨ha, hb, hc⟩ := ih hndt (dismissStep s) key.1
      (fun m t2 e => ⟨by rw [key.2.2.1, e]; rfl, key.2.2.2 m t2 e⟩)
      (fun e => by rw [key.2.2.1, e]; rfl)
    have hiter : dismissStep^[(n :: t).length] s
        = dismissStep^[t.length] (dismissStep s) := by
      rw [List.length_cons, Function.iterate_succ_apply]
    rw [hiter]
    refine ⟨?_, hb, hc⟩
    rw [ha, key.2.1, List.append_assoc]
    have htt : t.take 1 ++ t.tail = t := by cases t <;> simp
    rw [htt]
    rfl

/-- The canonical run presents exactly the loaded list, in order, and
drains the queue. -/
theorem deliverRun_trace (l : List TeamAchievementNotification)
    (hids : (l.map fun n => n.id).Nodup) :
    (deliverRun l).shownLog = l
    ∧ (deliverRun l).notifications = []
    ∧ (deliverRun l).showNotification = false := by
  cases l with
  | nil => exact ⟨rfl, rfl, rfl⟩
  | cons n t =>
    have h0 :
        (notificationsEffect
          (loadUnreadNotifications (BackendResult.ok (n :: t)) initialState)).notifications
            = n :: t
        ∧ (notificationsEffect
          (loadUnreadNotifications (BackendResult.ok (n :: t)) initialState)).showNotification
            = true
        ∧ (notificationsEffect
          (loadUnreadNotifications (BackendResult.ok (n :: t)) initialState)).currentNotification
            = some n
        ∧ (notificationsEffect
          (loadUnreadNotifications (BackendResult.ok (n :: t)) initialState)).shownLog
            = [n] := by
      simp [notificationsEffect, loadUnreadNotifications, showNextNotification,
        triggerConfetti, initialState]
    obtain ⟨ha, hb, hc⟩ := dismiss_loop (n :: t) hids
      (notificationsEffect
        (loadUnreadNotifications (BackendResult.ok (n :: t)) initialState))
      h0.1 (fun m t2 e => ⟨h0.2.1, by rw [h0.2.2.1]; injection e with e1 _; rw [e1]⟩)
      (by intro e; cases e)
    refine ⟨?_, hb, hc⟩
    rw [show deliverRun (n :: t)
        = dismissStep^[(n :: t).length]
            (notificationsEffect
              (loadUnreadNotifications (BackendResult.ok (n :: t)) initialState)) from rfl]
    rw [ha, h0.2.2.2]
    rfl

/-- Membership in an insertion: the inserted element or an original one. -/
theorem mem_insertByCreatedAt {x n : TeamAchievementNotification} :
    ∀ {l : List TeamAchievementNotification},
    x ∈ insertByCreatedAt n l → x = n ∨ x ∈ l := by
  intro l
  induction l with
  | nil => intro h; simpa [insertByCreatedAt] using h
  | cons m ms ih =>
    intro h
    simp only [insertByCreatedAt] at h
    by_cases hlt : m.created_at < n.created_at
    · rw [if_pos hlt] at h
      rcases List.mem_cons.mp h with h1 | h1
      · exact Or.inr (by simp [h1])
      · rcases ih h1 with h2 | h2
        · exact Or.inl h2
        · exact Or.inr (List.mem_cons_of_mem m h2)
    · rw [if_neg hlt] at h
      rcases List.mem_cons.mp h with h1 | h1
      · exact Or.inl h1
      · exact Or.inr h1

/-- Inserting into a `created_at`-ordered list keeps it ordered. -/
theorem pairwise_insertByCreatedAt (n : TeamAchievementNotification) :
    ∀ l : List TeamAchievementNotification,
    l.Pairwise leByCreatedAt → (insertByCreatedAt n l).Pairwise leByCreatedAt := by
  intro l
  induction l with
  | nil => intro _; simp [insertByCreatedAt]
  | cons m ms ih =>
    intro h
    rcases List.pairwise_cons.mp h with ⟨hm, hms⟩
    simp only [insertByCreatedAt]
    by_cases hlt : m.created_at < n.created_at
    · rw [if_pos hlt]
      refine List.pairwise_cons.mpr ⟨?_, ih hms⟩
      intro b hb
      rcases mem_insertByCreatedAt hb with h1 | h1
      · rw [h1]; exact Nat.le_of_lt hlt
      · exact hm b h1
    · rw [if_neg hlt]
      refine List.pairwise_cons.mpr ⟨?_, h⟩
      intro b hb
      rcases List.mem_cons.mp hb with h1 | h1
      · rw [h1]; exact Nat.le_of_not_lt hlt
      · exact Nat.le_trans (Nat.le_of_not_lt hlt) (hm b h1)

/-- The backend ordering (`order by created_at ascending`): the query
model's sort produces a `created_at`-ascending list. -/
theorem pairwise_sortByCreatedAt (l : List TeamAchievementNotification) :
    (sortByCreatedAt l).Pairwise leByCreatedAt := by
  induction l with
  | nil => simp [sortByCreatedAt]
  | cons n ns ih => exact pairwise_insertByCreatedAt n _ ih

/-! ## Claim theorems -/

/-- Claim C1: for every finite set of unread notifications present at load
time (distinct ids), with no mark-read failures, the canonical run shows
each notification exactly once — the presentation log is exactly the
loaded list, each member occurs once in it — before the Pending Queue
returns to empty (and the Sequencer to Idle). -/
theorem eventual_delivery_exactly_once (l : List TeamAchievementNotification)
    (hids : (l.map fun n => n.id).Nodup) :
    (deliverRun l).shownLog = l
    ∧ (∀ n ∈ l, (deliverRun l).shownLog.count n = 1)
    ∧ (deliverRun l).notifications = []
    ∧ (deliverRun l).showNotification = false := by
  obtain ⟨ha, hb, hc⟩ := deliverRun_trace l hids
  refine ⟨ha, ?_, hb, hc⟩
  intro n hn
  rw [ha]
  exact List.count_eq_one_of_mem (List.Nodup.of_map _ hids) hn

/-- Witness for C1 at a concrete two-element load. -/
theorem eventual_delivery_exactly_once_witness :
    (deliverRun [sampleN1, sampleN2]).shownLog = [sampleN1, sampleN2]
    ∧ (deliverRun [sampleN1, sampleN2]).shownLog.count sampleN1 = 1
    ∧ (deliverRun [sampleN1, sampleN2]).notifications = [] :=
  ⟨(eventual_delivery_exactly_once [sampleN1, sampleN2] (by decide)).1,
   (eventual_delivery_exactly_once [sampleN1, sampleN2] (by decide)).2.1
     sampleN1 (by decide),
   (eventual_delivery_exactly_once [sampleN1, sampleN2] (by decide)).2.2.1⟩

/-- Claim C2: for every sequence of event completions (loads, live-feed
inserts, effect runs, dismissals, timer firings), at most one notification
is presented at any instant. -/
theorem single_presentation_invariant (events : List Event) :
    (shownNotifications (applyEvents events initialState)).length ≤ 1 :=
  shownNotifications_length_le_one _

/-- Claim C3: the query orders by `created_at` ascending and the Sequencer
always presents the queue head, so notifications are shown in `created_at`
ascending order; with pairwise-distinct timestamps the order is strictly
ascending (t1 before t2 before t3). -/
theorem fifo_presentation_order (rows : List TeamAchievementNotification)
    (userId : String)
    (hids : ((loadUnreadQuery rows userId).map fun n => n.id).Nodup) :
    (deliverRun (loadUnreadQuery rows userId)).shownLog
      = loadUnreadQuery rows userId
    ∧ (deliverRun (loadUnreadQuery rows userId)).shownLog.Pairwise leByCreatedAt
    ∧ ((deliverRun (loadUnreadQuery rows userId)).shownLog.Pairwise neByCreatedAt →
       (deliverRun (loadUnreadQuery rows userId)).shownLog.Pairwise ltByCreatedAt) := by
  obtain ⟨ha, _, _⟩ := deliverRun_trace (loadUnreadQuery rows userId) hids
  have hs : (deliverRun (loadUnreadQuery rows userId)).shownLog.Pairwise leByCreatedAt := by
    rw [ha]
    exact pairwise_sortByCreatedAt _
  refine ⟨ha, hs, ?_⟩
  intro hne
  exact (hs.and hne).imp fun h => Nat.lt_of_le_of_ne h.1 h.2

/-- Witness for C3: a shuffled backend table containing an already-read
row and another user's row; shown strictly ascending. -/
theorem fifo_presentation_order_witness :
    (deliverRun (loadUnreadQuery
        [sampleN2, sampleRead, sampleN3, sampleOtherUser, sampleN1] "u-1")).shownLog
      = loadUnreadQuery
          [sampleN2, sampleRead, sampleN3, sampleOtherUser, sampleN1] "u-1"
    ∧ (deliverRun (loadUnreadQuery
        [sampleN2, sampleRead, sampleN3, sampleOtherUser, sampleN1] "u-1")).shownLog.Pairwise
        ltByCreatedAt :=
  ⟨(fifo_presentation_order
      [sampleN2, sampleRead, sampleN3, sampleOtherUser, sampleN1] "u-1" (by decide)).1,
   (fifo_presentation_order
      [sampleN2, sampleRead, sampleN3, sampleOtherUser, sampleN1] "u-1" (by decide)).2.2
     (by decide)⟩

/-- Claim C4: acknowledgment is idempotent.  A second `handleClose` after
a first one leaves the whole state — the Pending Queue in particular —
unchanged; the queue-removal step itself is idempotent; and removal only
ever deletes (the result is a sublist of the input), so re-acknowledging
can never re-insert a previously shown item. -/
theorem acknowledgment_idempotent :
    (∀ (r1 r2 : RpcResult) (s : ComponentState),
      handleClose r2 (handleClose r1 s) = handleClose r1 s)
    ∧ (∀ (i : String) (q : List TeamAchievementNotification),
      removeById i (removeById i q) = removeById i q)
    ∧ (∀ (i : String) (q : List TeamAchievementNotification),
      (removeById i q).Sublist q) := by
  refine ⟨?_, ?_, ?_⟩
  · intro r1 r2 s
    cases h : s.currentNotification with
    | none => simp [handleClose, h]
    | some cur => simp [handleClose, h]
  · intro i q
    simp [removeById, List.filter_filter]
  · intro i q
    exact List.filter_sublist q

/-- Claim C5: dismissing the currently shown notification removes its id
from the local queue and transitions Showing to Idle identically for
every remote mark-read outcome — the rpc result is never inspected. -/
theorem dismissal_removes_locally_regardless_of_remote (remote : RpcResult)
    (s : ComponentState) (n : TeamAchievementNotification)
    (h : s.currentNotification = some n) :
    handleClose remote s = handleClose RpcResult.ok s
    ∧ (handleClose remote s).notifications = removeById n.id s.notifications
    ∧ (handleClose remote s).showNotification = false
    ∧ (handleClose remote s).currentNotification = none
    ∧ (handleClose remote s).markReadCalls = s.markReadCalls ++ [n.id] := by
  simp [handleClose, h]

/-- Witness for C5: dismissing while the remote call fails. -/
theorem dismissal_removes_locally_regardless_of_remote_witness :
    handleClose (RpcResult.err "network down") showingOne
      = handleClose RpcResult.ok showingOne
    ∧ (handleClose (RpcResult.err "network down") showingOne).notifications
      = removeById sampleN1.id showingOne.notifications
    ∧ (handleClose (RpcResult.err "network down") showingOne).showNotification = false :=
  ⟨(dismissal_removes_locally_regardless_of_remote (RpcResult.err "network down")
      showingOne sampleN1 (by decide)).1,
   (dismissal_removes_locally_regardless_of_remote (RpcResult.err "network down")
      showingOne sampleN1 (by decide)).2.1,
   (dismissal_removes_locally_regardless_of_remote (RpcResult.err "network down")
      showingOne sampleN1 (by decide)).2.2.1⟩

/-- Claim C6, counterexample: on a failed load the source's
`if (!error && data) { setNotifications(data); }` has no else branch and
the function body contains no `console.error`, so at this concrete failed
first load no diagnostic is recorded — contradicting the claim's
"a diagnostic is recorded". -/
theorem load_failure_records_no_diagnostic :
    (loadUnreadNotifications (BackendResult.err "network error")
        initialState).consoleErrors = initialState.consoleErrors
    ∧ ¬ (initialState.consoleErrors <
        (loadUnreadNotifications (BackendResult.err "network error")
          initialState).consoleErrors) := by
  decide

/-- Claim C6, amended: a failed load or reload is recovered locally — the
handler returns normally with the state (the Pending Queue in particular)
exactly as it was, so no exception reaches the user — but no diagnostic is
recorded. -/
theorem load_failure_fail_soft (message : String) (s : ComponentState) :
    loadUnreadNotifications (BackendResult.err message) s = s := rfl

/-- Claim C7: the Idle-to-Showing transition of the `[notifications]`
effect triggers confetti exactly once; and while Showing, a completed
reload (whatever rows it returns, including ones still headed by the same
id) triggers no confetti and leaves the presented item and the Showing
state untouched. -/
theorem confetti_once_per_transition :
    (∀ s : ComponentState, s.showNotification = false → s.notifications ≠ [] →
      (notificationsEffect s).confettiCount = s.confettiCount + 1
      ∧ (notificationsEffect s).showNotification = true)
    ∧ (∀ (s : ComponentState) (result : BackendResult),
      s.showNotification = true →
      (applyEvent (Event.loadComplete result) s).confettiCount = s.confettiCount
      ∧ (applyEvent (Event.loadComplete result) s).currentNotification
          = s.currentNotification
      ∧ (applyEvent (Event.loadComplete result) s).showNotification = true) := by
  constructor
  · intro s hshow hne
    obtain ⟨n, t, hnt⟩ := List.exists_cons_of_ne_nil hne
    simp [notificationsEffect, showNextNotification, triggerConfetti, hnt, hshow]
  · intro s result hshow
    cases result with
    | ok rows =>
      cases rows <;>
        simp [applyEvent, loadUnreadNotifications, notificationsEffect, hshow]
    | err m =>
      cases hn : s.notifications <;>
        simp [applyEvent, loadUnreadNotifications, notificationsEffect, hn, hshow]

/-- Witness for C7: a fresh Idle-to-Showing transition fires confetti
once; a reload arriving while `sampleN1` is shown (its result still headed
by the same id) fires none. -/
theorem confetti_once_per_transition_witness :
    (notificationsEffect loadedIdle).confettiCount = loadedIdle.confettiCount + 1
    ∧ (applyEvent (Event.loadComplete (BackendResult.ok [sampleN1, sampleN2]))
        showingOne).confettiCount = showingOne.confettiCount :=
  ⟨(confetti_once_per_transition.1 loadedIdle (by decide) (by decide)).1,
   (confetti_once_per_transition.2 showingOne
      (BackendResult.ok [sampleN1, sampleN2]) (by decide)).1⟩

/-- The C8 failing run: mount with one unread notification, present it,
dismiss it (scheduling the 500 ms settling timer, with the confetti
interval still within its 3000 ms duration), then unmount. -/
def c8Mount : ComponentState × Option CleanupAction :=
  mountEffect (BackendResult.ok [sampleN1]) initialState

def c8AtUnmount : ComponentState :=
  unmount c8Mount.2
    (notificationsEffect (handleClose RpcResult.ok (notificationsEffect c8Mount.1)))

/-- Claim C8 (code bug): neither timer is cancelled at teardown.  The
`useEffect` bodies return no cleanup and the settling `setTimeout` handle
is never stored, so after unmount the settling timer is still pending —
and subsequently fires — and the confetti interval is still running,
contradicting "both are cancelled on teardown" and "neither ever fires
after the component is torn down". -/
theorem timers_survive_teardown :
    c8AtUnmount.settlingTimersPending = 1
    ∧ c8AtUnmount.confettiIntervalActive = true
    ∧ (settlingTimerFire c8AtUnmount).settlingTimersPending = 0 := by
  decide

/-- The C9 failing run: mount (opening the live-feed subscription), then
unmount immediately. -/
def c9AtUnmount : ComponentState :=
  unmount (mountEffect (BackendResult.ok []) initialState).2
    (mountEffect (BackendResult.ok []) initialState).1

/-- Claim C9 (code bug): the live-feed subscription is not torn down.
`subscribeToNotifications` builds and returns the unsubscribe closure, but
the `useEffect` body discards it and returns nothing, so React registers
no cleanup: after unmount the subscription is still active, and a
subsequent insert event still runs the callback and mutates the disposed
component's state — contradicting "torn down on teardown" and "the
insert-event callback is never invoked after teardown". -/
theorem subscription_survives_teardown :
    (mountEffect (BackendResult.ok []) initialState).2 = none
    ∧ c9AtUnmount.subscriptionActive = true
    ∧ (applyEvent (Event.insertEvent (BackendResult.ok [sampleN1]))
        c9AtUnmount).notifications = [sampleN1] := by
  decide

/-- Claim C10: invoking `handleClose` with no notification shown is a
complete no-op — the guard `if (currentNotification)` fails, so the state
is returned unchanged: no mark-read call is issued (`markReadCalls` is
part of the state), the queue and Showing/Idle flag are untouched, and no
settling timer is scheduled (`settlingTimersPending` is part of the
state). -/
theorem close_noop_when_nothing_shown (remote : RpcResult)
    (s : ComponentState) (h : s.currentNotification = none) :
    handleClose remote s = s := by
  simp [handleClose, h]

/-- Witness for C10 at the initial state with a failing remote. -/
theorem close_noop_when_nothing_shown_witness :
    handleClose (RpcResult.err "boom") initialState = initialState :=
  close_noop_when_nothing_shown (RpcResult.err "boom") initialState rfl

end Bekuta
